import Mathlib

/-!
Verification of the adrena-client transaction pipeline and position-economics
helpers against their natural-language specification.

Shallow embedding conventions:
* bn.js `BN` values are arbitrary-precision integers; they are modelled as `ℤ`
  (or `ℕ` where the source only ever holds non-negative values).  `BN.div`
  truncates toward zero and is modelled by `Int.tdiv`; `BN.divRound` rounds to
  nearest (half away from zero) and is modelled by `bnDivRound` on `ℕ` for the
  non-negative operands the client uses.
* JavaScript `number` values that only flow through exact operations are
  modelled as `ℚ`.  Where the source can produce `NaN` / `Infinity` (a division
  whose divisor is zero in `calculateCappedFeeForExitEarly`) the IEEE special
  values are modelled explicitly by `JSNum`.
* Network effects (RPC calls, signing, broadcasting) are modelled by
  environment records that carry the outcome of each external call, and the
  functions under verification are pure state transformers over them.
-/

/-- bn.js `a.div(b)`: integer division truncating toward zero (source uses it
in `calculatePositionBorrowFee` for `/ 3600` and `/ 1e9`). -/
def bnDiv (a b : ℤ) : ℤ := Int.tdiv a b

/-- bn.js `a.divRound(b)` for the non-negative operands used by
`applySlippage` (utils.ts:607): division rounded to nearest, halves away from
zero, i.e. round half up on `ℕ`. -/
def bnDivRound (a b : ℕ) : ℕ :=
  if 2 * (a % b) < b then a / b else a / b + 1

/-! ## Borrow-fee accrual (claim C1)

`AdrenaClient.calculatePositionBorrowFee` (AdrenaClient.ts:3726-3771) together
with the split-accumulator convention of `u128SplitToBN` (utils.ts:237-243).
-/

/-- A 128-bit accumulator stored as two 64-bit halves (types.d.ts `U128Split`). -/
structure U128Split where
  high : ℤ
  low : ℤ

/-- utils.ts:237-243 `u128SplitToBN`: `high.shln(64).add(low)`. -/
def u128SplitToBN (u : U128Split) : ℤ := u.high * 2 ^ 64 + u.low

/-- The custody fields read by `calculatePositionBorrowFee`
(`custody.nativeObject.borrowRateState`). -/
structure BorrowRateState where
  cumulativeInterest : U128Split
  lastUpdate : ℤ
  currentRate : ℤ

structure CustodyBorrowInfo where
  borrowRateState : BorrowRateState

/-- The position fields read by `calculatePositionBorrowFee`
(`position.nativeObject`). -/
structure PositionBorrowInfo where
  cumulativeInterestSnapshot : U128Split
  borrowSizeUsd : ℤ
  unrealizedInterestUsd : ℤ

/-- AdrenaClient.ts:3726-3771 `calculatePositionBorrowFee`.  `currentTime` is
`new BN(Date.now() / 1000)`, i.e. the truncated epoch-second clock, taken here
as a parameter.  NOTE (AdrenaClient.ts:3743-3752): when
`currentTime > lastUpdate` the source computes
`newCumulativeInterest = (currentTime - lastUpdate) * currentRate / 3600` and
evaluates `cumulativeInterest.add(newCumulativeInterest);` — but bn.js `add`
is pure and the result is never reassigned, so the projected increment is
discarded.  The embedding reproduces that faithfully: `newCumulativeInterest`
is computed below and, exactly as in the source, never used. -/
def calculatePositionBorrowFee (collateralCustody : CustodyBorrowInfo)
    (position : PositionBorrowInfo) (currentTime : ℤ) : ℤ :=
  let cumulativeInterest :=
    collateralCustody.borrowRateState.cumulativeInterest.low +
      collateralCustody.borrowRateState.cumulativeInterest.high * 2 ^ 64
  let _newCumulativeInterest : ℤ :=
    if currentTime > collateralCustody.borrowRateState.lastUpdate then
      bnDiv ((currentTime - collateralCustody.borrowRateState.lastUpdate) *
        collateralCustody.borrowRateState.currentRate) 3600
    else 0
  -- `cumulativeInterest.add(_newCumulativeInterest);` — result dropped
  let cumulativeInterestSnapshot :=
    position.cumulativeInterestSnapshot.low +
      position.cumulativeInterestSnapshot.high * 2 ^ 64
  let positionInterest :=
    if cumulativeInterest > cumulativeInterestSnapshot then
      cumulativeInterest - cumulativeInterestSnapshot
    else 0
  let totalInterestUsd := bnDiv (positionInterest * position.borrowSizeUsd) 1000000000
  totalInterestUsd + position.unrealizedInterestUsd

/-- The accrual formula the specification states as the intended one (§4.7 and
the §9 open question): identical to `calculatePositionBorrowFee` except that
the projected increment is actually added to the accumulator before the
snapshot is subtracted.  Used only to exhibit the divergence of claim C1. -/
def calculatePositionBorrowFeeIntended (collateralCustody : CustodyBorrowInfo)
    (position : PositionBorrowInfo) (currentTime : ℤ) : ℤ :=
  let base :=
    collateralCustody.borrowRateState.cumulativeInterest.low +
      collateralCustody.borrowRateState.cumulativeInterest.high * 2 ^ 64
  let cumulativeInterest :=
    if currentTime > collateralCustody.borrowRateState.lastUpdate then
      base + bnDiv ((currentTime - collateralCustody.borrowRateState.lastUpdate) *
        collateralCustody.borrowRateState.currentRate) 3600
    else base
  let cumulativeInterestSnapshot :=
    position.cumulativeInterestSnapshot.low +
      position.cumulativeInterestSnapshot.high * 2 ^ 64
  let positionInterest :=
    if cumulativeInterest > cumulativeInterestSnapshot then
      cumulativeInterest - cumulativeInterestSnapshot
    else 0
  let totalInterestUsd := bnDiv (positionInterest * position.borrowSizeUsd) 1000000000
  totalInterestUsd + position.unrealizedInterestUsd

/-- Custody with zero accumulator, `lastUpdate = 1000`, `currentRate = 7200`
(rate decimals are irrelevant to the divergence). -/
def c1Custody : CustodyBorrowInfo := ⟨⟨⟨0, 0⟩, 1000, 7200⟩⟩

/-- Position with zero snapshot, `borrowSizeUsd = 10^9`,
`unrealizedInterestUsd = 0`. -/
def c1Position : PositionBorrowInfo := ⟨⟨0, 0⟩, 1000000000, 0⟩

/-- Claim C1: `calculatePositionBorrowFee` is specified to include the freshly
projected increment `(now - lastUpdate) * currentRate / 3600` in the returned
value.  The code computes the increment but discards it (the unassigned
`cumulativeInterest.add(...)` at AdrenaClient.ts:3751), so at
`currentTime = 4600` (3600 s past `lastUpdate`, increment
`3600 * 7200 / 3600 = 7200`) the code returns `0` while the specified formula
returns `7200`.  The claim describes the intended behaviour; the code is the
slip the spec's own §9 open question flags. -/
theorem c1_borrow_fee_increment_discarded :
    calculatePositionBorrowFee c1Custody c1Position 4600 = 0 ∧
    calculatePositionBorrowFeeIntended c1Custody c1Position 4600 = 7200 := by
  constructor <;> decide

/-! ## Slippage adjustment and the open-position builders (claim C6)

utils.ts:599-610 `applySlippage`; AdrenaClient.ts:1114-1120 and 1234-1240
(the price argument passed by `buildOpenOrIncreasePositionWithSwapLong` /
`...Short`).
-/

/-- utils.ts:599-610 `applySlippage`.  `nb` is a non-negative u64 price BN.
`new BN((negative ? percentage * -1 : percentage) * 10_000)` truncates the
float product toward zero; for the `±0.3` used by the builders the IEEE-754
product `0.3 * 10_000` is exactly `3000`, so `Int.floor` of the exact rational
product coincides with the source.  `delta = nb.mul(pct).divRound(10_000 * 100)`. -/
def applySlippage (nb : ℕ) (percentage : ℚ) : ℤ :=
  if percentage < 0 then
    (nb : ℤ) - (bnDivRound (nb * (Int.floor (percentage * (-1) * 10000)).toNat) (10000 * 100) : ℕ)
  else
    (nb : ℤ) + (bnDivRound (nb * (Int.floor (percentage * 10000)).toNat) (10000 * 100) : ℕ)

/-- The argument record handed to the on-chain
`openOrIncreasePositionWithSwapLong` / `...Short` instruction (only the fields
the builders compute; account metas are address plumbing, not computation). -/
structure OpenPositionIxArgs where
  price : ℤ
  collateral : ℤ
  leverage : ℤ

/-- AdrenaClient.ts:1114-1124: the long builder passes
`priceWithSlippage = applySlippage(price, 0.3)` — the sign is the hard-coded
literal `0.3`, not a call-time parameter. -/
def buildOpenOrIncreasePositionWithSwapLong (price : ℕ) (collateralAmount leverage : ℤ) :
    OpenPositionIxArgs :=
  ⟨applySlippage price (3 / 10), collateralAmount, leverage⟩

/-- AdrenaClient.ts:1234-1244: the short builder passes
`priceWithSlippage = applySlippage(price, -0.3)` — hard-coded literal `-0.3`. -/
def buildOpenOrIncreasePositionWithSwapShort (price : ℕ) (collateralAmount leverage : ℤ) :
    OpenPositionIxArgs :=
  ⟨applySlippage price (-(3 / 10)), collateralAmount, leverage⟩

/-- The delta formula stated verbatim by claim C6:
`price × 30000 / 1000000` with rounded division. -/
def claimedSlippageDelta (price : ℕ) : ℕ := bnDivRound (price * 30000) 1000000

/-- Claim C6 counterexample: the claim's parenthetical formula
`delta = price × 30000 / 1000000` is off by a factor of ten.  At
`price = 10^6` the long builder passes `1003000` (plus 0.3%, the code's
`price × 3000 / 1000000`), not the `1030000` (plus 3%) the claimed formula
yields. -/
theorem c6_slippage_formula_counterexample :
    (buildOpenOrIncreasePositionWithSwapLong 1000000 0 0).price = 1003000 ∧
    (1000000 : ℤ) + claimedSlippageDelta 1000000 = 1030000 := by
  constructor
  · norm_num [buildOpenOrIncreasePositionWithSwapLong, applySlippage, bnDivRound]
  · norm_num [claimedSlippageDelta, bnDivRound]

/-- Claim C6 (amended: the delta is `price × 3000 / 1000000` with rounded
division, i.e. 0.3%, not `price × 30000 / 1000000`): for every input price the
long builder passes `price + round(price * 3000 / 10^6)` and the short builder
passes `price - round(price * 3000 / 10^6)` to the on-chain instruction; the
sign convention is fixed per builder (a hard-coded literal), not configurable
at call time. -/
theorem c6_slippage_amended (price : ℕ) (collateralAmount leverage : ℤ) :
    (buildOpenOrIncreasePositionWithSwapLong price collateralAmount leverage).price =
      (price : ℤ) + bnDivRound (price * 3000) 1000000 ∧
    (buildOpenOrIncreasePositionWithSwapShort price collateralAmount leverage).price =
      (price : ℤ) - bnDivRound (price * 3000) 1000000 := by
  have h1 : ¬ ((3 / 10 : ℚ) < 0) := by norm_num
  have h2 : ((-(3 / 10) : ℚ) < 0) := by norm_num
  have e1 : (Int.floor ((3 / 10 : ℚ) * 10000)) = 3000 := by norm_num
  constructor
  · simp [buildOpenOrIncreasePositionWithSwapLong, applySlippage, h1, e1]
  · simp [buildOpenOrIncreasePositionWithSwapShort, applySlippage, h2, e1]

/-- Claim C6 witness: the amended theorem at `price = 10^6`. -/
theorem c6_slippage_amended_witness :
    (buildOpenOrIncreasePositionWithSwapLong 1000000 5 7).price =
      (1000000 : ℤ) + bnDivRound (1000000 * 3000) 1000000 ∧
    (buildOpenOrIncreasePositionWithSwapShort 1000000 5 7).price =
      (1000000 : ℤ) - bnDivRound (1000000 * 3000) 1000000 :=
  c6_slippage_amended 1000000 5 7

/-! ## Early-exit fee cap (claim C5)

utils.ts:678-692 `calculateCappedFeeForExitEarly`.  The fee rate is a JS
float division that can produce `NaN` (`0 / 0`) or `±Infinity` (`x / 0`), so
the result is modelled by `JSNum`; all other operations on the inputs stay in
the exact rational fragment.
-/

/-- A JS `number` outcome: an ordinary (rational-modelled) value, `NaN`, or a
signed infinity. -/
inductive JSNum where
  | nan : JSNum
  | posInf : JSNum
  | negInf : JSNum
  | val : ℚ → JSNum
deriving DecidableEq

/-- JS division `a / b` for finite `a`, `b` (divisor `+0` when zero): `0 / 0`
is `NaN`, `x / 0` is `±Infinity` by the sign of `x`. -/
def jsDiv (a b : ℚ) : JSNum :=
  if b = 0 then (if a = 0 then .nan else if 0 < a then .posInf else .negInf)
  else .val (a / b)

/-- JS `Math.max(x, c)` with finite `c`: `NaN` absorbs. -/
def jsMaxC (x : JSNum) (c : ℚ) : JSNum :=
  match x with
  | .nan => .nan
  | .posInf => .posInf
  | .negInf => .val c
  | .val a => .val (max a c)

/-- JS `Math.min(x, c)` with finite `c`: `NaN` absorbs. -/
def jsMinC (x : JSNum) (c : ℚ) : JSNum :=
  match x with
  | .nan => .nan
  | .posInf => .val c
  | .negInf => .negInf
  | .val a => .val (min a c)

/-- The locked-stake fields read by `calculateCappedFeeForExitEarly`
(`endTime.toNumber()`, `lockDuration.toNumber()`), in seconds. -/
structure LockedStakeTimes where
  endTime : ℚ
  lockDuration : ℚ

/-- utils.ts:678-692 `calculateCappedFeeForExitEarly`.  `nowMs` is
`Date.now()` (milliseconds), taken as a parameter. -/
def calculateCappedFeeForExitEarly (lockedStake : LockedStakeTimes) (nowMs : ℚ) : JSNum :=
  let timeElapsed :=
    nowMs - (lockedStake.endTime * 1000 - lockedStake.lockDuration * 1000)
  let timeRemaining := lockedStake.lockDuration * 1000 - timeElapsed
  let feeRate := jsDiv timeRemaining (lockedStake.lockDuration * 1000)
  jsMinC (jsMaxC feeRate (15 / 100)) (4 / 10)

/-- The property claim C5 asserts of every result: a numeric value in the
closed band `[0.15, 0.40]`. -/
def inExitFeeBand (x : JSNum) : Prop :=
  match x with
  | .val q => 15 / 100 ≤ q ∧ q ≤ 4 / 10
  | _ => False

instance (x : JSNum) : Decidable (inExitFeeBand x) := by
  unfold inExitFeeBand
  cases x <;> infer_instance

/-- Helper: `jsDiv` only yields `NaN` for `0 / 0`. -/
theorem jsDiv_ne_nan (a b : ℚ) (h : b = 0 → a ≠ 0) : jsDiv a b ≠ JSNum.nan := by
  unfold jsDiv
  by_cases hb : b = 0
  · by_cases ha : 0 < a <;> simp [hb, h hb, ha]
  · simp [hb]

/-- Helper: clamping any non-`NaN` JS number between `0.15` and `0.4` lands in
the band. -/
theorem clamp_in_band (x : JSNum) (hx : x ≠ JSNum.nan) :
    inExitFeeBand (jsMinC (jsMaxC x (15 / 100)) (4 / 10)) := by
  cases x with
  | nan => exact absurd rfl hx
  | posInf => simp [jsMaxC, jsMinC, inExitFeeBand]; norm_num
  | negInf => simp [jsMaxC, jsMinC, inExitFeeBand]; norm_num
  | val a =>
    simp only [jsMaxC, jsMinC, inExitFeeBand]
    constructor
    · exact le_min (le_max_right _ _) (by norm_num)
    · exact min_le_right _ _

/-- Claim C5 counterexample: a stake with `lockDuration = 0` whose
`endTime * 1000` equals the current clock makes the fee rate `0 / 0 = NaN`;
`Math.max` / `Math.min` propagate `NaN`, so the function returns `NaN`, which
is not a value in `[0.15, 0.40]`. -/
theorem c5_capped_fee_nan_counterexample :
    calculateCappedFeeForExitEarly ⟨1, 0⟩ 1000 = JSNum.nan ∧
    ¬ inExitFeeBand (calculateCappedFeeForExitEarly ⟨1, 0⟩ 1000) := by
  have h : calculateCappedFeeForExitEarly ⟨1, 0⟩ 1000 = JSNum.nan := by
    norm_num [calculateCappedFeeForExitEarly, jsDiv, jsMaxC, jsMinC]
  refine ⟨h, ?_⟩
  rw [h]
  simp [inExitFeeBand]

/-- Claim C5 (amended: excluding the single `NaN` corner — `lockDuration = 0`
with exactly-zero computed elapsed time, i.e. `nowMs = endTime * 1000`, where
the fee rate is `0 / 0 = NaN`): for every locked stake and clock, including
zero or negative lock duration, negative elapsed time, and elapsed time past
the lock end, the returned value lies in the closed band `[0.15, 0.40]`. -/
theorem c5_capped_fee_band_amended (lockedStake : LockedStakeTimes) (nowMs : ℚ)
    (h : lockedStake.lockDuration ≠ 0 ∨ nowMs ≠ lockedStake.endTime * 1000) :
    inExitFeeBand (calculateCappedFeeForExitEarly lockedStake nowMs) := by
  unfold calculateCappedFeeForExitEarly
  refine clamp_in_band _ (jsDiv_ne_nan _ _ ?_)
  intro hden
  rcases h with hld | hnow
  · exact absurd hden (mul_ne_zero hld (by norm_num))
  · have hld : lockedStake.lockDuration = 0 := by
      rcases mul_eq_zero.mp hden with h1 | h1
      · exact h1
      · norm_num at h1
    rw [hld]
    intro h0
    apply hnow
    linarith

/-- Claim C5 witness: a 90-day stake probed 30 days before its end lands in
the band. -/
theorem c5_capped_fee_band_amended_witness :
    inExitFeeBand (calculateCappedFeeForExitEarly ⟨7776000, 7776000⟩ 5184000000) :=
  c5_capped_fee_band_amended ⟨7776000, 7776000⟩ 5184000000 (Or.inl (by norm_num))

/-! ## Transaction-error translation (claim C8)

utils.ts:325-334 `AdrenaTransactionError` and utils.ts:336-413
`parseTransactionError`.  The regex extractions over the raw failure payload
(`custom program error: 0x…`, `"Custom": n`, `Error Code: …`,
`Error Message: …`, the JSON-stringified comparisons) are pure string probes;
they are modelled as precomputed signal fields of the raw error value, and the
decision logic downstream of them is embedded verbatim.  A JS regex capture
`[a-zA-Z]+` / `[0-9]+` is never the empty string, so a present (`some`) signal
is always truthy in the source's `if` tests.
-/

/-- utils.ts:325-334 `AdrenaTransactionError`: a (mutable) transaction hash
and a read-only error string. -/
structure AdrenaTransactionError where
  txHash : Option String
  errorString : String
deriving DecidableEq

/-- The signals `parseTransactionError` extracts from a non-domain error
value. -/
structure RawErrSignals where
  errCodeHex : Option ℕ
  errCodeDecimals : Option ℕ
  errName : Option String
  errMessage : Option String
  /-- `safeJSONStringify(err) === '"BlockhashNotFound"'` -/
  isBlockhashNotFoundJson : Bool
  /-- `safeJSONStringify(err).includes('InsufficientFundsForRent')` -/
  hasInsufficientFundsForRent : Bool
deriving DecidableEq

/-- The input of `parseTransactionError`: either an already-translated domain
error or a raw value characterized by its extracted signals. -/
inductive RawError where
  | adrena : AdrenaTransactionError → RawError
  | other : RawErrSignals → RawError
deriving DecidableEq

/-- One entry of `adrenaProgram.idl.errors`. -/
structure IdlErrorEntry where
  code : ℕ
  name : String
  msg : Option String
deriving DecidableEq

/-- utils.ts:392-398: the `idl.errors.find` predicate — name match, hex-code
match, or decimal-code match, each guarded by non-null. -/
def idlErrorMatches (s : RawErrSignals) (e : IdlErrorEntry) : Bool :=
  s.errName == some e.name || s.errCodeHex == some e.code ||
    s.errCodeDecimals == some e.code

/-- utils.ts:405-406 tail of the fallback chain, reached when `errName` is
absent and `errCodeHex` is absent or zero (JS `if (errCodeHex)` is false for
`0`): `errCodeDecimals === 1` → `Insufficient SOL`; truthy `errCodeDecimals` →
`Error code: n`; otherwise `Unknown error`. -/
def decimalsFallbackString (s : RawErrSignals) : String :=
  match s.errCodeDecimals with
  | some 1 => "Insufficient SOL"
  | some c => if c ≠ 0 then "Error code: " ++ toString c else "Unknown error"
  | none => "Unknown error"

/-- utils.ts:402-408: the fallback diagnostic string when neither transient
signal nor IDL message applies. -/
def fallbackErrorString (s : RawErrSignals) : String :=
  match s.errName with
  | some n =>
    match s.errMessage with
    | some m => n ++ ": " ++ m
    | none => "Error name: " ++ n
  | none =>
    match s.errCodeHex with
    | some c => if c ≠ 0 then "Error code: " ++ toString c else decimalsFallbackString s
    | none => decimalsFallbackString s

/-- utils.ts:336-413 `parseTransactionError`.  Pass an already-translated
`AdrenaTransactionError` through unchanged; otherwise derive the error string
— the blockhash-not-found JSON signal first, then the
insufficient-funds-for-rent signal, then a truthy `msg` of the first matching
IDL error-table entry (JS `if (idlError?.msg)` is false for an absent or empty
message), and finally the raw-diagnostic fallback — and return it with a null
transaction hash.  Every operation on the raw value (regex probe, `parseInt`,
`Array.find`, the guarded `safeJSONStringify`) is non-throwing, so the
function always produces a value; the embedding is accordingly total. -/
def parseTransactionError (idlErrors : List IdlErrorEntry) (err : RawError) :
    AdrenaTransactionError :=
  match err with
  | .adrena e => e
  | .other s =>
    let errStr : String :=
      if s.isBlockhashNotFoundJson then "BlockhashNotFound"
      else if s.hasInsufficientFundsForRent then
        "Not enough SOL to pay for transaction fees and rent"
      else
        match (idlErrors.find? (fun e => idlErrorMatches s e)).bind (fun e => e.msg) with
        | some m => if m = "" then fallbackErrorString s else m
        | none => fallbackErrorString s
    ⟨none, errStr⟩

/-- Claim C8: `parseTransactionError` always returns an
`AdrenaTransactionError` value (it is a total function and no modelled
operation throws); an input that is already an `AdrenaTransactionError` is
passed through unchanged (same value, same `txHash` and `errorString`);
otherwise the result has a null `txHash` and an error string derived in
priority order — the blockhash-not-found signal, then the insufficient-funds
signal, then the message of the IDL error-table entry matched by name or
numeric code, and otherwise the unknown/raw-diagnostic fallback string. -/
theorem c8_parse_transaction_error_spec (idlErrors : List IdlErrorEntry)
    (e : AdrenaTransactionError) (s : RawErrSignals) :
    parseTransactionError idlErrors (.adrena e) = e ∧
    (parseTransactionError idlErrors (.other s)).txHash = none ∧
    (s.isBlockhashNotFoundJson = true →
      (parseTransactionError idlErrors (.other s)).errorString = "BlockhashNotFound") ∧
    (s.isBlockhashNotFoundJson = false → s.hasInsufficientFundsForRent = true →
      (parseTransactionError idlErrors (.other s)).errorString =
        "Not enough SOL to pay for transaction fees and rent") ∧
    (∀ m : String, s.isBlockhashNotFoundJson = false →
      s.hasInsufficientFundsForRent = false →
      ((idlErrors.find? (fun e => idlErrorMatches s e)).bind (fun e => e.msg)) = some m →
      m ≠ "" →
      (parseTransactionError idlErrors (.other s)).errorString = m) ∧
    (s.isBlockhashNotFoundJson = false → s.hasInsufficientFundsForRent = false →
      ((idlErrors.find? (fun e => idlErrorMatches s e)).bind (fun e => e.msg)) = none →
      (parseTransactionError idlErrors (.other s)).errorString = fallbackErrorString s) := by
  refine ⟨rfl, ?_, ?_, ?_, ?_, ?_⟩
  · unfold parseTransactionError
    rfl
  · intro hb
    simp [parseTransactionError, hb]
  · intro hb hi
    simp [parseTransactionError, hb, hi]
  · intro m hb hi hfind hm
    simp [parseTransactionError, hb, hi, hfind, hm]
  · intro hb hi hfind
    simp [parseTransactionError, hb, hi, hfind]

/-- Claim C8 witness: the pass-through arm at a concrete domain error and the
blockhash arm at a concrete raw signal set. -/
theorem c8_parse_transaction_error_spec_witness :
    parseTransactionError [] (.adrena ⟨some "abc", "boom"⟩) = ⟨some "abc", "boom"⟩ ∧
    (parseTransactionError []
      (.other ⟨none, none, none, none, true, false⟩)).errorString = "BlockhashNotFound" :=
  ⟨(c8_parse_transaction_error_spec [] ⟨some "abc", "boom"⟩
      ⟨none, none, none, none, true, false⟩).1,
    (c8_parse_transaction_error_spec [] ⟨some "abc", "boom"⟩
      ⟨none, none, none, none, true, false⟩).2.2.1 rfl⟩

/-! ## User-profile loading (claim C9)

AdrenaClient.ts:399-414 `loadUserProfile`.  The network fetch
(`account.userProfile.fetchNullable`) is modelled by its result; the decoded
account record is carried through as the payload (the source wraps it in a
`UserProfileExtended` whose `nativeObject` is this record, plus display-unit
conversions of its fields).
-/

/-- The decoded `userProfile` account; only `createdAt` participates in the
tri-state discrimination. -/
structure UserProfileAccount where
  createdAt : ℤ
deriving DecidableEq

/-- The three outcomes of `loadUserProfile`: `null` (client not ready),
`false` (profile not initialized), or the decoded profile. -/
inductive LoadUserProfileResult where
  | notReady : LoadUserProfileResult
  | notInitialized : LoadUserProfileResult
  | profile : UserProfileAccount → LoadUserProfileResult
deriving DecidableEq

/-- AdrenaClient.ts:399-414 `loadUserProfile`: return `null` when there is no
readonly program to load with; fetch the profile account; return `false` when
the account is absent (`p === null`) or `p.createdAt.isZero()`; otherwise
return the decoded profile. -/
def loadUserProfile (hasReadonlyProgram : Bool)
    (fetched : Option UserProfileAccount) : LoadUserProfileResult :=
  if !hasReadonlyProgram then .notReady
  else
    match fetched with
    | none => .notInitialized
    | some p => if p.createdAt = 0 then .notInitialized else .profile p

/-- Claim C9: `loadUserProfile` returns `null` (`notReady`) exactly when the
client has no readonly program; returns `false` (`notInitialized`) exactly
when a readonly program exists and the fetched account is absent or has a
zero `createdAt`; and otherwise returns the decoded profile value. -/
theorem c9_load_user_profile_tristate (hasReadonlyProgram : Bool)
    (fetched : Option UserProfileAccount) (p : UserProfileAccount) :
    (loadUserProfile hasReadonlyProgram fetched = .notReady ↔
      hasReadonlyProgram = false) ∧
    (loadUserProfile hasReadonlyProgram none = .notInitialized ↔
      hasReadonlyProgram = true) ∧
    (loadUserProfile hasReadonlyProgram (some p) = .notInitialized ↔
      hasReadonlyProgram = true ∧ p.createdAt = 0) ∧
    (loadUserProfile hasReadonlyProgram (some p) = .profile p ↔
      hasReadonlyProgram = true ∧ p.createdAt ≠ 0) := by
  cases hasReadonlyProgram <;> cases fetched <;>
    by_cases hz : p.createdAt = 0 <;>
    simp_all [loadUserProfile] <;> split_ifs <;> simp_all

/-- Claim C9 witness: concrete evaluations through the theorem — a ready
client with an initialized profile, and the iff applied both ways. -/
theorem c9_load_user_profile_tristate_witness :
    loadUserProfile true (some ⟨7⟩) = .profile ⟨7⟩ :=
  (c9_load_user_profile_tristate true (some ⟨7⟩) ⟨7⟩).2.2.2.mpr ⟨rfl, by norm_num⟩

/-! ## Position-address derivation and memoization (claim C10)

AdrenaClient.ts:216-246 `getPositionPda` (memoized; seeds `'position'`,
owner, token mint, the ASCII side string) and AdrenaClient.ts:5066-5086
`findPositionAddress` (seeds `'position'`, owner, main pool, custody, a
single side byte `1`/`2`).

`PublicKey.findProgramAddressSync` is a deterministic pure function of the
seed byte-strings and the program id (a SHA-256-based derivation with bump
search).  It is modelled content-addressed: an address is the seed-list /
program-id pair itself, so two derivations agree exactly when their inputs
agree — distinct seed lists map to distinct addresses up to SHA-256 collision.
-/

/-- A byte string (a `Buffer` seed or a 32-byte key). -/
abbrev ByteSeed := List ℕ

/-- A derived program address, content-addressed by its derivation inputs. -/
structure PdaAddress where
  seeds : List ByteSeed
  programId : ByteSeed
deriving DecidableEq

/-- `PublicKey.findProgramAddressSync(seeds, programId)[0]`, content-addressed
(see the section comment). -/
def findProgramAddressSync (seeds : List ByteSeed) (programId : ByteSeed) : PdaAddress :=
  ⟨seeds, programId⟩

inductive PositionSide where
  | long : PositionSide
  | short : PositionSide
deriving DecidableEq

/-- `Buffer.from(side)`: the ASCII bytes of `'long'` / `'short'`
(AdrenaClient.ts:237). -/
def sideSeedString : PositionSide → ByteSeed
  | .long => [108, 111, 110, 103]
  | .short => [115, 104, 111, 114, 116]

/-- `Buffer.from([{long: 1, short: 2}[side]])` (AdrenaClient.ts:5077-5082). -/
def sideSeedByte : PositionSide → ByteSeed
  | .long => [1]
  | .short => [2]

/-- `Buffer.from('position')` in ASCII. -/
def positionSeed : ByteSeed := [112, 111, 115, 105, 116, 105, 111, 110]

/-- The derivation `getPositionPda` performs on a cache miss
(AdrenaClient.ts:232-240): seeds `['position', owner, token.mint, side]`. -/
def getPositionPdaUncached (programId owner mint : ByteSeed) (side : PositionSide) :
    PdaAddress :=
  findProgramAddressSync [positionSeed, owner, mint, sideSeedString side] programId

/-- AdrenaClient.ts:5066-5086 `findPositionAddress`: seeds
`['position', owner, mainPool, custody, sideByte]`. -/
def findPositionAddress (programId mainPool owner custody : ByteSeed)
    (side : PositionSide) : PdaAddress :=
  findProgramAddressSync
    [positionSeed, owner, mainPool, custody, sideSeedByte side] programId

/-- The side component of the memoization key (the template literal uses the
`'long'` / `'short'` string directly). -/
def sideCacheString : PositionSide → String
  | .long => "long"
  | .short => "short"

/-- AdrenaClient.ts:224: the cache key
`` `${owner.toBase58()}-${token.mint.toBase58()}-${side}` ``.  The base58
rendering of a key is abstracted as a parameter. -/
def positionPdaCacheKey (toBase58 : ByteSeed → String) (owner mint : ByteSeed)
    (side : PositionSide) : String :=
  toBase58 owner ++ "-" ++ toBase58 mint ++ "-" ++ sideCacheString side

/-- AdrenaClient.ts:219-246 `getPositionPda`: return the cached address for
the key if present (a `PublicKey` object is always truthy), else derive,
store, and return.  The cache (`positionPdaCache`) is threaded explicitly. -/
def getPositionPda (toBase58 : ByteSeed → String)
    (cache : List (String × PdaAddress)) (programId owner mint : ByteSeed)
    (side : PositionSide) : PdaAddress × List (String × PdaAddress) :=
  let cacheKey := positionPdaCacheKey toBase58 owner mint side
  match cache.lookup cacheKey with
  | some pda => (pda, cache)
  | none =>
    let pda := getPositionPdaUncached programId owner mint side
    (pda, (cacheKey, pda) :: cache)

/-- Claim C10 counterexample: at owner `[1]`, a token with mint `[2]` and
custody `[3]`, main pool `[4]`, side `long`, the two derivations disagree —
`getPositionPda` derives from four seeds (`'position'`, owner, mint,
`'long'`), `findPositionAddress` from five (`'position'`, owner, pool,
custody, byte `1`). -/
theorem c10_position_pda_disagree_counterexample :
    getPositionPdaUncached [9] [1] [2] .long ≠ findPositionAddress [9] [4] [1] [3] .long := by
  decide

/-- Claim C10 (amended: the two derivations never agree — they use different
seed schemes, `getPositionPda` omitting the pool and using the mint and the
ASCII side string where `findPositionAddress` includes the main pool, the
custody and a single side byte; the memoization part of the claim holds:
starting from an empty cache, a call and a repeated call with equal inputs
both return exactly the uncached derivation). -/
theorem c10_position_pda_amended (toBase58 : ByteSeed → String)
    (programId mainPool owner mint custody : ByteSeed) (side : PositionSide) :
    getPositionPdaUncached programId owner mint side ≠
      findPositionAddress programId mainPool owner custody side ∧
    (getPositionPda toBase58 [] programId owner mint side).1 =
      getPositionPdaUncached programId owner mint side ∧
    (getPositionPda toBase58
        (getPositionPda toBase58 [] programId owner mint side).2
        programId owner mint side).1 =
      (getPositionPda toBase58 [] programId owner mint side).1 := by
  refine ⟨?_, ?_, ?_⟩
  · intro h
    have hlen := congrArg (fun a => a.seeds.length) h
    simp [getPositionPdaUncached, findPositionAddress, findProgramAddressSync] at hlen
  · simp [getPositionPda, List.lookup]
  · simp [getPositionPda, List.lookup]

/-- Claim C10 witness: the amended theorem at the concrete inputs of the
counterexample (with an arbitrary constant base58 rendering). -/
theorem c10_position_pda_amended_witness :
    getPositionPdaUncached [9] [1] [2] .short ≠ findPositionAddress [9] [4] [1] [3] .short ∧
    (getPositionPda (fun _ => "k") [] [9] [1] [2] .short).1 =
      getPositionPdaUncached [9] [1] [2] .short ∧
    (getPositionPda (fun _ => "k")
        (getPositionPda (fun _ => "k") [] [9] [1] [2] .short).2
        [9] [1] [2] .short).1 =
      (getPositionPda (fun _ => "k") [] [9] [1] [2] .short).1 :=
  c10_position_pda_amended (fun _ => "k") [9] [4] [1] [2] [3] .short

/-! ## Simulation retry loop (claim C7)

AdrenaClient.ts:4605-4664 `simulateTransactionStrong` /
`simulateTransactionStrongPromise`.  Each attempt either resolves with the
simulation value or fails with a derived error string (`errorString` of a
thrown `AdrenaTransactionError`, else `String(err)` — this also covers the
non-null `result.value.err` path, which is turned into a thrown domain error);
the outcome of the k-th attempt is supplied by the `attempts` stream.  A
failed attempt whose string contains `'BlockhashNotFound'` is retried after a
50 ms `setTimeout` while `retry < 10`; anything else rejects.
-/

/-- JS `String.prototype.includes` on character lists. -/
def listContainsSub (needle : List Char) : List Char → Bool
  | [] => needle.isEmpty
  | c :: rest => needle.isPrefixOf (c :: rest) || listContainsSub needle rest

/-- The transient-retry marker string. -/
def blockhashNotFoundChars : List Char := "BlockhashNotFound".toList

/-- Outcome of one `connection.simulateTransaction` attempt, after the
`then`/`catch` handling collapses both failure paths into an error string. -/
inductive SimAttemptOutcome where
  | resolved : ℕ → SimAttemptOutcome
  | failed : List Char → SimAttemptOutcome

/-- What the promise-driving recursion produces: how the promise settles, how
many simulate calls were made, and the accumulated `setTimeout` delay. -/
structure SimRetryOutcome where
  settled : Except (List Char) ℕ
  attemptsMade : ℕ
  totalDelayMs : ℕ

/-- AdrenaClient.ts:4614-4664 `simulateTransactionStrongPromise`: try attempt
`retry`; on failure, if the error string contains `'BlockhashNotFound'` and
`retry < 10`, recurse on `retry + 1` after a 50 ms delay, else reject. -/
def simulateTransactionStrongPromise (attempts : ℕ → SimAttemptOutcome)
    (retry : ℕ) : SimRetryOutcome :=
  match attempts retry with
  | .resolved v => ⟨.ok v, 1, 0⟩
  | .failed errString =>
    if h : listContainsSub blockhashNotFoundChars errString = true ∧ retry < 10 then
      let r := simulateTransactionStrongPromise attempts (retry + 1)
      ⟨r.settled, r.attemptsMade + 1, r.totalDelayMs + 50⟩
    else
      ⟨.error errString, 1, 0⟩
termination_by 10 - retry
decreasing_by simp_wf; omega

/-- Unfolding lemma: a resolved attempt settles immediately. -/
theorem strongPromise_resolved (attempts : ℕ → SimAttemptOutcome) (retry v : ℕ)
    (hA : attempts retry = .resolved v) :
    simulateTransactionStrongPromise attempts retry = ⟨.ok v, 1, 0⟩ := by
  rw [simulateTransactionStrongPromise, hA]

/-- Unfolding lemma: a transient failure below the retry bound recurses with
one more attempt and 50 ms more delay. -/
theorem strongPromise_retry (attempts : ℕ → SimAttemptOutcome) (retry : ℕ)
    (s : List Char) (hA : attempts retry = .failed s)
    (hg : listContainsSub blockhashNotFoundChars s = true ∧ retry < 10) :
    simulateTransactionStrongPromise attempts retry =
      ⟨(simulateTransactionStrongPromise attempts (retry + 1)).settled,
        (simulateTransactionStrongPromise attempts (retry + 1)).attemptsMade + 1,
        (simulateTransactionStrongPromise attempts (retry + 1)).totalDelayMs + 50⟩ := by
  rw [simulateTransactionStrongPromise, hA]
  simp only [dif_pos hg]

/-- Unfolding lemma: a non-transient failure, or an exhausted retry budget,
rejects with the error string. -/
theorem strongPromise_stop (attempts : ℕ → SimAttemptOutcome) (retry : ℕ)
    (s : List Char) (hA : attempts retry = .failed s)
    (hg : ¬ (listContainsSub blockhashNotFoundChars s = true ∧ retry < 10)) :
    simulateTransactionStrongPromise attempts retry = ⟨.error s, 1, 0⟩ := by
  rw [simulateTransactionStrongPromise, hA]
  simp only [dif_neg hg]

/-- Helper: attempt count, delay accounting and exhaustion behaviour of the
retry recursion at an arbitrary starting depth. -/
theorem simulateStrongPromise_spec (attempts : ℕ → SimAttemptOutcome) :
    ∀ n retry, 10 - retry ≤ n →
      1 ≤ (simulateTransactionStrongPromise attempts retry).attemptsMade ∧
      (simulateTransactionStrongPromise attempts retry).attemptsMade ≤ 10 - retry + 1 ∧
      (simulateTransactionStrongPromise attempts retry).totalDelayMs =
        50 * ((simulateTransactionStrongPromise attempts retry).attemptsMade - 1) ∧
      ((∀ k, ∃ s, attempts k = .failed s ∧
          listContainsSub blockhashNotFoundChars s = true) →
        ∃ s, (simulateTransactionStrongPromise attempts retry).settled = .error s ∧
          (simulateTransactionStrongPromise attempts retry).attemptsMade =
            10 - retry + 1) := by
  intro n
  induction n with
  | zero =>
    intro retry hr
    cases hA : attempts retry with
    | resolved v =>
      rw [strongPromise_resolved attempts retry v hA]
      refine ⟨by simp, by simp, by simp, ?_⟩
      intro hall
      obtain ⟨s, hs, _⟩ := hall retry
      rw [hA] at hs
      exact absurd hs (by simp)
    | failed s =>
      have hguard : ¬ (listContainsSub blockhashNotFoundChars s = true ∧ retry < 10) := by
        omega
      rw [strongPromise_stop attempts retry s hA hguard]
      exact ⟨by simp, by simp, by simp, fun _ => ⟨s, by simp, by simp; omega⟩⟩
  | succ n ih =>
    intro retry hr
    cases hA : attempts retry with
    | resolved v =>
      rw [strongPromise_resolved attempts retry v hA]
      refine ⟨by simp, by simp, by simp, ?_⟩
      intro hall
      obtain ⟨s, hs, _⟩ := hall retry
      rw [hA] at hs
      exact absurd hs (by simp)
    | failed s =>
      by_cases hguard : listContainsSub blockhashNotFoundChars s = true ∧ retry < 10
      · rw [strongPromise_retry attempts retry s hA hguard]
        obtain ⟨-, hglt⟩ := hguard
        obtain ⟨h1, h2, h3, h4⟩ := ih (retry + 1) (by omega)
        have hb2 : (simulateTransactionStrongPromise attempts (retry + 1)).attemptsMade + 1 ≤
            10 - retry + 1 := by omega
        have hb3 : (simulateTransactionStrongPromise attempts (retry + 1)).totalDelayMs + 50 =
            50 * ((simulateTransactionStrongPromise attempts (retry + 1)).attemptsMade + 1 - 1) := by
          omega
        refine ⟨by simp, by simpa using hb2, by simpa using hb3, ?_⟩
        intro hall
        obtain ⟨t, ht, hat⟩ := h4 hall
        have hb4 : (simulateTransactionStrongPromise attempts (retry + 1)).attemptsMade + 1 =
            10 - retry + 1 := by omega
        exact ⟨t, by simpa using ht, by simpa using hb4⟩
      · rw [strongPromise_stop attempts retry s hA hguard]
        refine ⟨by simp, by simp, by simp, ?_⟩
        intro hall
        obtain ⟨t, ht, hct⟩ := hall retry
        rw [hA] at ht
        have hst : s = t := by injection ht
        subst hst
        have hge : 10 ≤ retry := by
          by_contra hlt
          exact hguard ⟨hct, by omega⟩
        exact ⟨s, by simp, by simp; omega⟩

/-- Claim C7: starting from `retry = 0`, the recursion makes at most 11
simulate calls (so at most 10 retries); the accumulated delay is a fixed
50 ms per retry; if every attempt fails with the transient
`'BlockhashNotFound'` signal the bounded attempts are exhausted — exactly 11
calls — and the promise settles with a rejection; and a non-transient failure
on the first attempt rejects immediately with that error.  Totality of
`simulateTransactionStrongPromise` (accepted by well-founded recursion on
`10 - retry`) is the termination of the retry recursion. -/
theorem c7_simulate_retry_bounded (attempts : ℕ → SimAttemptOutcome) :
    (simulateTransactionStrongPromise attempts 0).attemptsMade ≤ 11 ∧
    (simulateTransactionStrongPromise attempts 0).totalDelayMs =
      50 * ((simulateTransactionStrongPromise attempts 0).attemptsMade - 1) ∧
    ((∀ k, ∃ s, attempts k = .failed s ∧
        listContainsSub blockhashNotFoundChars s = true) →
      ∃ s, (simulateTransactionStrongPromise attempts 0).settled = .error s ∧
        (simulateTransactionStrongPromise attempts 0).attemptsMade = 11) ∧
    (∀ s, attempts 0 = .failed s →
      listContainsSub blockhashNotFoundChars s = false →
      (simulateTransactionStrongPromise attempts 0).settled = .error s) := by
  obtain ⟨h1, h2, h3, h4⟩ := simulateStrongPromise_spec attempts 10 0 (by omega)
  refine ⟨by omega, h3, fun hall => ?_, ?_⟩
  · obtain ⟨s, hs, hat⟩ := h4 hall
    exact ⟨s, hs, by omega⟩
  · intro s hA hc
    rw [strongPromise_stop attempts 0 s hA (by simp [hc])]

/-- Claim C7 witness: with every attempt failing transiently, the promise is
rejected after exactly 11 simulate calls. -/
theorem c7_simulate_retry_bounded_witness :
    ∃ s, (simulateTransactionStrongPromise
        (fun _ => .failed blockhashNotFoundChars) 0).settled = .error s ∧
      (simulateTransactionStrongPromise
        (fun _ => .failed blockhashNotFoundChars) 0).attemptsMade = 11 :=
  (c7_simulate_retry_bounded (fun _ => .failed blockhashNotFoundChars)).2.2.1
    (fun _ => ⟨blockhashNotFoundChars, rfl, by decide⟩)

/-! ## Transaction submission pipeline (claims C2, C3)

AdrenaClient.ts:4769-5042 `signAndExecuteTxAlternative`.  Every external call
is modelled by its outcome, supplied in a `SubmitEnv`:
`getLatestBlockhash`, the priority-fee percentile fetch (a failure keeps the
tier default), `simulateTransaction`, `wallet.signTransaction`, the first
`sendRawTransaction`, and the confirmation polls (`getSignatureStatus`).  The
result records how the promise settles, how many `sendRawTransaction` calls
were made, and the compute-budget values finally set on the transaction
(`instructions[0]` = compute-unit price, `instructions[1]` = compute-unit
limit).  Abstractions: wall-clock loop time is replaced by the finite poll
list (its end is the 30 s deadline); re-broadcasts inside the confirmation
loop are taken to transmit successfully; JS float arithmetic on fees is exact
rational arithmetic here (`1.05` stands for the float whose value differs from
`21/20` by under `5e-17`, irrelevant to every comparison below).
-/

/-- `simulateTransaction`'s resolved value: the simulation response fields the
function reads (`err`, `unitsConsumed`). -/
structure SimOut where
  err : Option String
  unitsConsumed : Option ℕ

/-- One `getSignatureStatus` poll: `none` models both a rejected call (caught
to `null`) and a `null` status value — the source treats them identically;
`some` carries `confirmations` and `err`. -/
structure PollStatus where
  confirmations : Option ℕ
  err : Option RawError

/-- Signals of a value that matches none of the probes (a plain string or
`null` fed to `parseTransactionError`). -/
def nullErrSignals : RawErrSignals := ⟨none, none, none, none, false, false⟩

/-- Errors thrown by `signAndExecuteTxAlternative`: translated domain errors,
or the one bare `throw new Error('Transaction signature missing')`. -/
inductive SubmitError where
  | adrena : AdrenaTransactionError → SubmitError
  | plain : String → SubmitError
deriving DecidableEq

/-- Outcomes of the external calls the submission makes, in program order. -/
structure SubmitEnv where
  blockhashRes : Except RawError Unit
  percentileFee : Option ℕ
  simRes : Except RawError SimOut
  /-- signal extraction for the `Error` thrown on a non-null simulation `err` -/
  errorSignals : String → RawErrSignals
  signSucceeds : Bool
  hasSignature : Bool
  txSignature : String
  sendRes : Except RawError Unit
  polls : List (Option PollStatus)
  walletIsSolflare : Bool

/-- What the submission produced (see the section comment). -/
structure SubmitResult where
  outcome : Except SubmitError String
  broadcasts : ℕ
  computeUnitPrice : ℚ
  computeUnitLimit : ℚ

/-- AdrenaClient.ts:4864-4887, the priority-fee adjustment: when consumption
is known, a cap is configured and consumption is positive, if
`rate * used / 10^6` (lamports) exceeds `maxPriorityFee * LAMPORTS_PER_SOL`,
replace the rate by `Math.floor(capLamports * 10^6 / used)`. -/
def adjustedPriorityFeeRate (maxPriorityFee : Option ℚ) (rate : ℚ)
    (computeUnitUsed : Option ℕ) : ℚ :=
  match computeUnitUsed, maxPriorityFee with
  | some used, some mpf =>
    if 0 < used then
      let maxPriorityFeeLamports := mpf * 1000000000
      let totalPriorityFee := rate * used / 1000000
      if totalPriorityFee > maxPriorityFeeLamports then
        ((Int.floor (maxPriorityFeeLamports * 1000000 / used) : ℤ) : ℚ)
      else rate
    else rate
  | _, _ => rate

/-- AdrenaClient.ts:4889-4901, the compute-unit-limit adjustment: when
consumption is known, set `instructions[1]` to `used * 1.05`, plus `12000`
for a Solflare wallet; otherwise the initial `1400000` stands. -/
def adjustedComputeUnitLimit (computeUnitUsed : Option ℕ) (walletIsSolflare : Bool)
    (current : ℚ) : ℚ :=
  match computeUnitUsed with
  | some used => (used : ℚ) * (21 / 20) + (if walletIsSolflare then 12000 else 0)
  | none => current

/-- AdrenaClient.ts:4956-5034, the confirmation loop over the poll outcomes:
a poll with `confirmations > 10` ends the loop (then a non-null status `err`
still fails the submission, with the signature attached); any other poll
re-broadcasts the same signed transaction and continues; running out of polls
is the 30 s deadline, which fails with an error built from the last status
(`err`, or the `'Transaction not confirmed'` string — signal-free either way)
and the signature attached.  Returns the settlement and the number of
re-broadcasts. -/
def confirmationLoop (idlErrors : List IdlErrorEntry) (sig : String) :
    List (Option PollStatus) → Option PollStatus → Except SubmitError String × ℕ
  | [], last =>
    let rawArg : RawError :=
      match last with
      | some st =>
        match st.err with
        | some e => e
        | none => .other nullErrSignals
      | none => .other nullErrSignals
    let e0 := parseTransactionError idlErrors rawArg
    (.error (.adrena ⟨some sig, e0.errorString⟩), 0)
  | poll :: rest, _ =>
    match poll with
    | some st =>
      match st.confirmations with
      | some c =>
        if 10 < c then
          match st.err with
          | some e =>
            let e0 := parseTransactionError idlErrors e
            (.error (.adrena ⟨some sig, e0.errorString⟩), 0)
          | none => (.ok sig, 0)
        else
          let r := confirmationLoop idlErrors sig rest poll
          (r.1, r.2 + 1)
      | none =>
        let r := confirmationLoop idlErrors sig rest poll
        (r.1, r.2 + 1)
    | none =>
      let r := confirmationLoop idlErrors sig rest poll
      (r.1, r.2 + 1)

/-- AdrenaClient.ts:4769-5042 `signAndExecuteTxAlternative`.
`defaultPriorityFee` is `DEFAULT_PRIORITY_FEES[priorityFeeOption]`;
`maxPriorityFee` is the configured cap in SOL (`null` = none).  Stages in
source order: fetch blockhash (failure throws, translated); refresh the
priority-fee rate from the percentile endpoint (failure keeps the default);
unshift `setComputeUnitPrice(rate)` and `setComputeUnitLimit(1400000)`;
simulate (a rejected call, or a response with non-null `err`, throws the
translated error); adjust the rate against the cap and the limit to
`used * 1.05 (+ overhead)`; sign (rejection throws `User rejected the
request`); take the signature (a missing one throws a bare `Error`); send the
raw transaction once; then run the confirmation loop. -/
def signAndExecuteTxAlternative (maxPriorityFee : Option ℚ) (defaultPriorityFee : ℕ)
    (idlErrors : List IdlErrorEntry) (env : SubmitEnv) : SubmitResult :=
  match env.blockhashRes with
  | .error e => ⟨.error (.adrena (parseTransactionError idlErrors e)), 0, 0, 0⟩
  | .ok _ =>
    let priorityFeeMicroLamports : ℕ := env.percentileFee.getD defaultPriorityFee
    let rate0 : ℚ := priorityFeeMicroLamports
    let limit0 : ℚ := 1400000
    match env.simRes with
    | .error e => ⟨.error (.adrena (parseTransactionError idlErrors e)), 0, rate0, limit0⟩
    | .ok sim =>
      match sim.err with
      | some eStr =>
        ⟨.error (.adrena (parseTransactionError idlErrors
            (.other (env.errorSignals ("Transaction simulation failed: " ++ eStr))))),
          0, rate0, limit0⟩
      | none =>
        let computeUnitUsed := sim.unitsConsumed
        let rate1 := adjustedPriorityFeeRate maxPriorityFee rate0 computeUnitUsed
        let limit1 := adjustedComputeUnitLimit computeUnitUsed env.walletIsSolflare limit0
        if env.signSucceeds = false then
          ⟨.error (.adrena ⟨none, "User rejected the request"⟩), 0, rate1, limit1⟩
        else if env.hasSignature = false then
          ⟨.error (.plain "Transaction signature missing"), 0, rate1, limit1⟩
        else
          match env.sendRes with
          | .error e =>
            ⟨.error (.adrena (parseTransactionError idlErrors e)), 1, rate1, limit1⟩
          | .ok _ =>
            let r := confirmationLoop idlErrors env.txSignature env.polls none
            ⟨r.1, 1 + r.2, rate1, limit1⟩

/-- Claim C3: whenever the simulation step fails — the simulate call rejects,
or it resolves with a non-null `err` — `signAndExecuteTxAlternative` settles
with a thrown error and performs zero `sendRawTransaction` calls: the
broadcast is never reached. -/
theorem c3_sim_failure_no_broadcast (maxPriorityFee : Option ℚ)
    (defaultPriorityFee : ℕ) (idlErrors : List IdlErrorEntry) (env : SubmitEnv) :
    (∀ e, env.simRes = Except.error e →
      (signAndExecuteTxAlternative maxPriorityFee defaultPriorityFee idlErrors env).broadcasts
          = 0 ∧
      ∃ er, (signAndExecuteTxAlternative maxPriorityFee defaultPriorityFee idlErrors
          env).outcome = Except.error er) ∧
    (∀ sim s, env.simRes = Except.ok sim → sim.err = some s →
      (signAndExecuteTxAlternative maxPriorityFee defaultPriorityFee idlErrors env).broadcasts
          = 0 ∧
      ∃ er, (signAndExecuteTxAlternative maxPriorityFee defaultPriorityFee idlErrors
          env).outcome = Except.error er) := by
  constructor
  · intro e hsim
    unfold signAndExecuteTxAlternative
    cases hb : env.blockhashRes with
    | error b => exact ⟨rfl, _, rfl⟩
    | ok u =>
      simp only [hsim]
      exact ⟨trivial, _, rfl⟩
  · intro sim s hsim herr
    unfold signAndExecuteTxAlternative
    cases hb : env.blockhashRes with
    | error b => exact ⟨rfl, _, rfl⟩
    | ok u =>
      simp only [hsim, herr]
      exact ⟨trivial, _, rfl⟩

/-- Claim C3 witness: a concrete environment whose simulate call rejects with
a signal-free raw error performs no broadcast and errors out. -/
theorem c3_sim_failure_no_broadcast_witness :
    (signAndExecuteTxAlternative none 100000 []
        ⟨.ok (), none, .error (.other nullErrSignals), fun _ => nullErrSignals,
          true, true, "sig", .ok (), [], false⟩).broadcasts = 0 ∧
    ∃ er, (signAndExecuteTxAlternative none 100000 []
        ⟨.ok (), none, .error (.other nullErrSignals), fun _ => nullErrSignals,
          true, true, "sig", .ok (), [], false⟩).outcome = Except.error er :=
  (c3_sim_failure_no_broadcast none 100000 []
      ⟨.ok (), none, .error (.other nullErrSignals), fun _ => nullErrSignals,
        true, true, "sig", .ok (), [], false⟩).1
    (.other nullErrSignals) rfl

/-- Environment for the claim C2 counterexample: a successful pipeline whose
simulation reports `100000` compute units, with a percentile rate of
`20000000` microLamports per unit. -/
def c2Env : SubmitEnv :=
  ⟨.ok (), some 20000000, .ok ⟨none, some 100000⟩, fun _ => nullErrSignals,
    true, true, "sig", .ok (), [some ⟨some 11, none⟩], false⟩

/-- Claim C2 counterexample: with the cap `maxPriorityFee = 1/1024` SOL
(`976562.5` lamports, exactly representable as a double) and a simulated
consumption of `100000` units, the adjustment sets the rate to
`floor(976562.5 * 10^6 / 100000) = 9765625`, capping `rate * consumption`,
but the ceiling actually set on the transaction is `100000 * 1.05 = 105000`
units, so the fee at the set ceiling is `9765625 * 105000 / 10^6 =
1025390.625` lamports — above the cap.  The claim's `rate × ceiling ≤ cap` is
false for the ceiling actually set. -/
theorem c2_fee_cap_counterexample :
    (signAndExecuteTxAlternative (some (1 / 1024)) 100000 [] c2Env).computeUnitPrice = 9765625 ∧
    (signAndExecuteTxAlternative (some (1 / 1024)) 100000 [] c2Env).computeUnitLimit = 105000 ∧
    (signAndExecuteTxAlternative (some (1 / 1024)) 100000 [] c2Env).computeUnitPrice *
        (signAndExecuteTxAlternative (some (1 / 1024)) 100000 [] c2Env).computeUnitLimit /
        1000000 >
      (1 / 1024) * 1000000000 := by
  have hrate : (signAndExecuteTxAlternative (some (1 / 1024)) 100000 [] c2Env).computeUnitPrice
      = 9765625 := by
    norm_num [signAndExecuteTxAlternative, c2Env, adjustedPriorityFeeRate,
      adjustedComputeUnitLimit]
  have hlimit : (signAndExecuteTxAlternative (some (1 / 1024)) 100000 [] c2Env).computeUnitLimit
      = 105000 := by
    norm_num [signAndExecuteTxAlternative, c2Env, adjustedPriorityFeeRate,
      adjustedComputeUnitLimit]
  refine ⟨hrate, hlimit, ?_⟩
  rw [hrate, hlimit]
  norm_num

/-- Claim C2 (amended: after the adjustment step the rate times the simulated
compute-unit consumption — the quantity the source checks, `rate * used /
10^6` lamports — never exceeds the configured cap, and the rate is only ever
adjusted downward, never upward; the rate times the ceiling actually set on
the transaction, `used * 1.05` plus any signer overhead, can exceed the cap
by up to that 5% margin). -/
theorem c2_fee_cap_amended (cap rate : ℚ) (used : ℕ) (h : 0 < used) :
    adjustedPriorityFeeRate (some cap) rate (some used) * used / 1000000 ≤
      cap * 1000000000 ∧
    (∀ (mpf : Option ℚ) (cuu : Option ℕ), adjustedPriorityFeeRate mpf rate cuu ≤ rate) := by
  have hu : (0 : ℚ) < (used : ℚ) := by exact_mod_cast h
  constructor
  · unfold adjustedPriorityFeeRate
    simp only [if_pos h]
    by_cases hgt : rate * used / 1000000 > cap * 1000000000
    · rw [if_pos hgt]
      have hfl : ((Int.floor (cap * 1000000000 * 1000000 / used) : ℤ) : ℚ) ≤
          cap * 1000000000 * 1000000 / used := Int.floor_le _
      have h2 : ((Int.floor (cap * 1000000000 * 1000000 / used) : ℤ) : ℚ) * used ≤
          cap * 1000000000 * 1000000 := by
        have := mul_le_mul_of_nonneg_right hfl (le_of_lt hu)
        rwa [div_mul_cancel₀ _ (ne_of_gt hu)] at this
      rw [div_le_iff₀ (by norm_num : (0 : ℚ) < 1000000)]
      linarith
    · rw [if_neg hgt]
      linarith [not_lt.mp hgt]
  · intro mpf cuu
    match cuu, mpf with
    | none, _ => simp [adjustedPriorityFeeRate]
    | some u, none => simp [adjustedPriorityFeeRate]
    | some u, some m =>
      unfold adjustedPriorityFeeRate
      by_cases hupos : 0 < u
      · simp only [if_pos hupos]
        by_cases hgt : rate * u / 1000000 > m * 1000000000
        · rw [if_pos hgt]
          have hu2 : (0 : ℚ) < (u : ℚ) := by exact_mod_cast hupos
          have hlt : m * 1000000000 * 1000000 / u < rate := by
            rw [div_lt_iff₀ hu2]
            have := mul_lt_mul_of_pos_right hgt (by norm_num : (0 : ℚ) < 1000000)
            rw [div_mul_cancel₀ _ (by norm_num : (1000000 : ℚ) ≠ 0)] at this
            nlinarith
          have hfl : ((Int.floor (m * 1000000000 * 1000000 / u) : ℤ) : ℚ) ≤
              m * 1000000000 * 1000000 / u := Int.floor_le _
          linarith
        · rw [if_neg hgt]
      · simp only [if_neg hupos]
        exact le_rfl

/-- Claim C2 witness: the amended theorem at the counterexample's inputs —
cap `1/1024` SOL, rate `20000000`, consumption `100000`; the adjusted rate
times consumption stays within the cap. -/
theorem c2_fee_cap_amended_witness :
    adjustedPriorityFeeRate (some (1 / 1024)) 20000000 (some 100000) * 100000 / 1000000 ≤
      (1 / 1024) * 1000000000 ∧
    (∀ (mpf : Option ℚ) (cuu : Option ℕ),
      adjustedPriorityFeeRate mpf 20000000 cuu ≤ 20000000) :=
  c2_fee_cap_amended (1 / 1024) 20000000 100000 (by norm_num)
